import Mathlib

/-!
Shallow embedding of ghettoci/main.py (the ghetto-ci continuous-integration
poller) and a verification of its specification claims.

External nondeterminism (shell command outcomes, the file system under the
status path, the SMTP transport) is resolved by a World record passed to every
embedded operation.  Embedded code that can raise a Python exception returns
Except PyError; the orchestrator additionally logs the external effects it
performs, so that short-circuit and idempotence claims can be stated as facts
about the effect log.
-/

namespace Ghettoci

/-- Python exception values that the embedded code can raise. -/
inductive PyError where
  | typeError (msg : String)
  | valueError (msg : String)
  | keyError (key : String)
  | smtpError
  | unpicklingError
deriving DecidableEq

/-- Persisted CI status record (class Status, main.py lines 116-125):
test_success defaults to False and last_commit_id to None. -/
structure Status where
  test_success : Bool
  last_commit_id : Option String
deriving DecidableEq

/-- Content of a file on disk, as far as the embedding distinguishes it:
either a valid pickle serialization of a Status record, or plain text. -/
inductive PFile where
  | pickled (st : Status)
  | textContent (s : String)
deriving DecidableEq

/-- The file system: a path is either absent or holds a file. -/
abbrev FS := String → Option PFile

/-- The external world of one invocation: the outcome (exit code, combined
output) of each shell command line, the file system, and whether the SMTP
transport fails (connection, authentication or delivery). -/
structure World where
  shell : String → Int × String
  fs : FS
  smtpFails : Bool

/-- A value handed to a file write: Python distinguishes str from bytes. -/
inductive PyData where
  | str (s : String)
  | bytes (st : Status)
deriving DecidableEq

/-- pickle.dumps on a Status record produces bytes (main.py line 152). -/
def pickle_dumps (st : Status) : PyData := PyData.bytes st

/-- pickle.loads on file content: a valid pickled record deserializes,
anything else raises (main.py line 142). -/
def pickle_loads : PFile → Except PyError Status
  | PFile.pickled st => Except.ok st
  | PFile.textContent _ => Except.error PyError.unpicklingError

/-- write() on a file opened in text mode ("wt"): accepts str and raises
TypeError on bytes. -/
def textModeWrite : PyData → Except PyError String
  | PyData.str s => Except.ok s
  | PyData.bytes _ => Except.error (PyError.typeError "write() argument must be str, not bytes")

/-- Status.read (main.py lines 127-144): opening an absent file raises
OSError, which is caught and yields the default Status; otherwise the content
is unpickled. -/
def Status.read (path : String) (fs : FS) : Except PyError Status :=
  match fs path with
  | Option.none => Except.ok { test_success := false, last_commit_id := Option.none }
  | Option.some content => pickle_loads content

/-- Status.write (main.py lines 146-154): f = open(path, "wt") creates or
truncates the file in text mode, then f.write(pickle.dumps(status)) hands the
pickle bytes to the text-mode write. -/
def Status.write (path : String) (st : Status) (fs : FS) : Except PyError Unit × FS :=
  let fs1 : FS := fun p => if p = path then Option.some (PFile.textContent "") else fs p
  match textModeWrite (pickle_dumps st) with
  | Except.error e => (Except.error e, fs1)
  | Except.ok s => (Except.ok (), fun p => if p = path then Option.some (PFile.textContent s) else fs1 p)

/-- Python str.split with a one-character separator, over the character list:
"".split(sep) is [""], and empty groups are kept. -/
def splitOnChar (sep : Char) : List Char → List (List Char)
  | [] => [[]]
  | c :: rest =>
    match splitOnChar sep rest with
    | [] => [[c]]
    | g :: gs => if c = sep then [] :: g :: gs else (c :: g) :: gs

/-- Python line.split(sep) for a one-character separator string. -/
def pySplit (s : String) (sep : Char) : List String :=
  (splitOnChar sep s.data).map (fun l => String.mk l)

/-- Python ",".join(values) where values is a string: joins its characters
with commas (main.py line 212). -/
def commaJoinChars : List Char → List Char
  | [] => []
  | [c] => [c]
  | c :: c2 :: rest => c :: ',' :: commaJoinChars (c2 :: rest)

/-- The string form of ",".join over the characters of a string. -/
def commaJoin (s : String) : String := String.mk (commaJoinChars s.data)

/-- Python 2-tuple unpacking "key, values = xs": exactly two elements, else
ValueError (main.py line 211). -/
def unpack2 : List String → Except PyError (String × String)
  | [a, b] => Except.ok (a, b)
  | _ => Except.error (PyError.valueError "values to unpack (expected 2)")

/-- The dict built by get_svn_info. -/
abbrev Dict := List (String × String)

/-- Python dict assignment data[key] = value: the newest binding shadows
older ones. -/
def dictInsert (d : Dict) (k v : String) : Dict := (k, v) :: d

/-- Python dict lookup info[key] resolved to its newest binding. -/
def dictLookup (d : Dict) (k : String) : Option String := List.lookup k d

/-- One iteration of the parsing loop of get_svn_info (main.py lines
210-213): key, values = line.split(":"), then value = ",".join(values). -/
def parseSvnLine (line : String) : Except PyError (String × String) :=
  match unpack2 (pySplit line ':') with
  | Except.error e => Except.error e
  | Except.ok (key, values) => Except.ok (key, commaJoin values)

/-- The for-loop of get_svn_info over output.split("\n"), building the dict. -/
def parseSvnLines : List String → Dict → Except PyError Dict
  | [], data => Except.ok data
  | line :: rest, data =>
    match parseSvnLine line with
    | Except.error e => Except.error e
    | Except.ok (k, v) => parseSvnLines rest (dictInsert data k v)

/-- SVNRepo.get_svn_info (main.py lines 201-215): run svn info, return
(None, output) on a non-zero exit, otherwise parse each line. -/
def get_svn_info (path : String) (w : World) : Except PyError (Option Dict × String) :=
  let r := w.shell ("svn info " ++ path)
  if r.1 != 0 then Except.ok (Option.none, r.2)
  else
    match parseSvnLines (pySplit r.2 '\n') [] with
    | Except.error e => Except.error e
    | Except.ok data => Except.ok (Option.some data, r.2)

/-- The value returned by SVNRepo.get_last_commit_info: either the 4-tuple
documented on the Repo interface, or, on the success path of the source, the
single string info["Revision"]. -/
inductive PyReturn where
  | tuple4 (commit_id author message : Option String) (raw : String)
  | str (s : String)
deriving DecidableEq

/-- SVNRepo.get_last_commit_info (main.py lines 191-199): on "not info"
(None or an empty dict) return (None, None, None, output); otherwise return
info["Revision"], raising KeyError when the key is absent. -/
def get_last_commit_info (path : String) (w : World) : Except PyError PyReturn :=
  match get_svn_info path w with
  | Except.error e => Except.error e
  | Except.ok (info, output) =>
    match info with
    | Option.none => Except.ok (PyReturn.tuple4 Option.none Option.none Option.none output)
    | Option.some d =>
      if d.isEmpty then Except.ok (PyReturn.tuple4 Option.none Option.none Option.none output)
      else
        match dictLookup d "Revision" with
        | Option.some v => Except.ok (PyReturn.str v)
        | Option.none => Except.error (PyError.keyError "Revision")

/-- The 4-way unpacking at main.py line 354: a 4-tuple unpacks to its fields;
a string is an iterable of its characters, so it unpacks only when it has
exactly four of them, else ValueError. -/
def unpack4 : PyReturn → Except PyError (Option String × Option String × Option String × String)
  | PyReturn.tuple4 a b c d => Except.ok (a, b, c, d)
  | PyReturn.str s =>
    match s.data with
    | [c1, c2, c3, c4] =>
      Except.ok (Option.some (Char.toString c1), Option.some (Char.toString c2),
        Option.some (Char.toString c3), Char.toString c4)
    | _ => Except.error (PyError.valueError "values to unpack (expected 4)")

/-- The Notifier configuration record (main.py lines 223-243). -/
structure Notifier where
  server : Option String
  port : Option Int
  username : Option String
  password : Option String
  receivers : Option String
  from_address : String

/-- Externally observable effects of an invocation. -/
inductive Effect where
  | shellRun (cmd : String)
  | fileOpenRead (path : String)
  | fileOpenWrite (path : String)
  | printOut (line : String)
  | emailAttempt (subject : String)
deriving DecidableEq

/-- Python truthiness of an optional string: None and "" are falsy. -/
def truthyStr : Option String → Bool
  | Option.none => false
  | Option.some s => !s.isEmpty

/-- Python truthiness test "if not x" on an optional string. -/
def falsyOptStr : Option String → Bool
  | Option.none => true
  | Option.some s => s.isEmpty

/-- Python "%s" rendering of an optional string: None renders as "None". -/
def pyStrOfOpt : Option String → String
  | Option.none => "None"
  | Option.some s => s

/-- Notifier.send_email_notification (main.py lines 248-283): connect with
SMTP_SSL when port is 465 and SMTP otherwise, optionally log in, then
sendmail inside try/finally that only closes the connection, so any transport
failure (connection, authentication, delivery) is re-raised to the caller.
The World field smtpFails resolves whether the transport fails. -/
def Notifier.send_email_notification (_n : Notifier) (subject _output : String) (w : World) :
    Except PyError Unit × List Effect :=
  if w.smtpFails then (Except.error PyError.smtpError, [Effect.emailAttempt subject])
  else (Except.ok (), [Effect.emailAttempt subject])

/-- Notifier.print_notification (main.py lines 285-291): the subject, a
dashed underline, then the output. -/
def Notifier.print_notification (_n : Notifier) (subject output : String) : List Effect :=
  [Effect.printOut subject,
   Effect.printOut (String.mk (List.replicate subject.length '-')),
   Effect.printOut output]

/-- Notifier.notify (main.py lines 293-300): when a server is configured the
email is attempted FIRST, with no exception handler; the console print
happens afterwards. -/
def Notifier.notify (n : Notifier) (subject output : String) (w : World) :
    Except PyError Unit × List Effect :=
  if truthyStr n.server then
    match n.send_email_notification subject output w with
    | (Except.error e, effs) => (Except.error e, effs)
    | (Except.ok _, effs) => (Except.ok (), effs ++ n.print_notification subject output)
  else (Except.ok (), n.print_notification subject output)

/-- run_tests (main.py lines 302-309): run the test command; exit code 0
means success. -/
def run_tests (test_command : String) (w : World) : Bool × String :=
  let r := w.shell test_command
  (r.1 == 0, r.2)

/-- A Python value passed as a keyword argument. -/
inductive PyObj where
  | pyNone
  | pyStr (s : String)
  | pyInt (n : Int)
deriving DecidableEq

/-- The TypeError message for a keyword that names no parameter. -/
def unexpectedKw (k : String) : String := "unexpected keyword argument: " ++ k

/-- Python keyword-argument binding at a call site: a keyword that is not a
parameter name raises TypeError; a parameter left without an argument raises
TypeError as well. -/
def bindKwargs (params : List String) (kwargs : List (String × PyObj)) :
    Except PyError (List (String × PyObj)) :=
  match kwargs.find? (fun kv => !(params.contains kv.1)) with
  | Option.some kv => Except.error (PyError.typeError (unexpectedKw kv.1))
  | Option.none =>
    match params.find? (fun p => !(kwargs.any (fun kv => kv.1 == p))) with
    | Option.some p => Except.error (PyError.typeError ("missing required argument: " ++ p))
    | Option.none => Except.ok kwargs

/-- The parameter names of Notifier.__init__ after self (main.py line 223). -/
def notifierInitParams : List String :=
  ["server", "port", "username", "password", "receivers", "from_address"]

/-- The command-line arguments of main (main.py lines 314-325). -/
structure Args where
  smtpserver : Option String
  smtpport : Option Int
  smtpuser : Option String
  smtppassword : Option String
  smtpfrom : String
  receivers : Option String
  force : Bool
  repository : String
  statusfile : String
  testcommand : String

/-- Option-argument values rendered as Python objects. -/
def pyObjOfOptStr : Option String → PyObj
  | Option.none => PyObj.pyNone
  | Option.some s => PyObj.pyStr s

/-- Option-argument integers rendered as Python objects. -/
def pyObjOfOptInt : Option Int → PyObj
  | Option.none => PyObj.pyNone
  | Option.some n => PyObj.pyInt n

/-- The keyword arguments of the Notifier construction at main.py lines
340-342, exactly as written there: note the keyword user. -/
def mainNotifierKwargs (a : Args) : List (String × PyObj) :=
  [("server", pyObjOfOptStr a.smtpserver),
   ("port", pyObjOfOptInt a.smtpport),
   ("user", pyObjOfOptStr a.smtpuser),
   ("password", pyObjOfOptStr a.smtppassword),
   ("from_address", PyObj.pyStr a.smtpfrom),
   ("receivers", pyObjOfOptStr a.receivers)]

/-- Main.py lines 381-390: build the new Status from commit_id and
test_success, Status.write it, then return 0 on success and 1 on failure. -/
def writeStatusAndExit (a : Args) (commit_id : Option String) (test_success : Bool)
    (w : World) (effs : List Effect) : Except PyError Int × List Effect :=
  let wr := Status.write a.statusfile { test_success := test_success, last_commit_id := commit_id } w.fs
  let effs2 := effs ++ [Effect.fileOpenWrite a.statusfile]
  match wr.1 with
  | Except.error e => (Except.error e, effs2)
  | Except.ok _ => ((if test_success then Except.ok 0 else Except.ok 1), effs2)

/-- The body of main from line 344 on, given a successfully constructed
notifier: read the status, svn up, get commit info and unpack it 4-ways,
fast-path on an unchanged commit without force, otherwise run the tests,
notify on an outcome transition, and persist the new status. -/
def mainRest (a : Args) (n : Notifier) (w : World) : Except PyError Int × List Effect :=
  match Status.read a.statusfile w.fs with
  | Except.error e => (Except.error e, [Effect.fileOpenRead a.statusfile])
  | Except.ok status =>
    let upCmd := "svn up " ++ a.repository
    let up := w.shell upCmd
    let success := up.1 == 0
    let effs1 := [Effect.fileOpenRead a.statusfile, Effect.shellRun upCmd]
    if !success then
      let nr := n.notify ("Could not update repository: " ++ a.repository ++ ". Probably not valid SVN repo?\n") up.2 w
      match nr.1 with
      | Except.error e => (Except.error e, effs1 ++ nr.2)
      | Except.ok _ => (Except.ok 1, effs1 ++ nr.2)
    else
      let effs2 := effs1 ++ [Effect.shellRun ("svn info " ++ a.repository)]
      match get_last_commit_info a.repository w with
      | Except.error e => (Except.error e, effs2)
      | Except.ok ret =>
        match unpack4 ret with
        | Except.error e => (Except.error e, effs2)
        | Except.ok (commit_id, commit_author, commit_message, output2) =>
          if falsyOptStr commit_id then
            let nr := n.notify ("Could not get commit info: " ++ a.repository ++ "\n" ++ output2) "Check svn info by hand" w
            match nr.1 with
            | Except.error e => (Except.error e, effs2 ++ nr.2)
            | Except.ok _ => (Except.ok 1, effs2 ++ nr.2)
          else if (commit_id != status.last_commit_id) || a.force then
            let t := run_tests a.testcommand w
            let test_success := t.1
            let effs3 := effs2 ++ [Effect.shellRun a.testcommand]
            let output3 := "Last commit " ++ pyStrOfOpt commit_id ++ ": " ++ pyStrOfOpt commit_message
              ++ " by " ++ pyStrOfOpt commit_author ++ "\n " ++ t.2
            if test_success != status.test_success then
              let subject := if test_success then "Test now succeed @ " ++ a.repository
                else "Test now fail @ " ++ a.repository
              let nr := n.notify subject output3 w
              match nr.1 with
              | Except.error e => (Except.error e, effs3 ++ nr.2)
              | Except.ok _ => writeStatusAndExit a commit_id test_success w (effs3 ++ nr.2)
            else writeStatusAndExit a commit_id test_success w effs3
          else (Except.ok 0, effs2)

/-- main (main.py lines 314-390).  The first statement is the Notifier
construction at lines 340-342, whose keyword arguments are bound against the
parameters of Notifier.__init__; only if that binding succeeds does the rest
of the orchestration run. -/
def pyMain (a : Args) (w : World) : Except PyError Int × List Effect :=
  match bindKwargs notifierInitParams (mainNotifierKwargs a) with
  | Except.error e => (Except.error e, [])
  | Except.ok _ =>
    let n : Notifier :=
      { server := a.smtpserver, port := a.smtpport, username := a.smtpuser,
        password := a.smtppassword, receivers := a.receivers, from_address := a.smtpfrom }
    mainRest a n w

/-- entry_point (main.py lines 392-400): sys.exit(main(...)); an unhandled
exception terminates the interpreter with status 1 after a traceback. -/
def processExit : Except PyError Int → Int
  | Except.ok n => n
  | Except.error _ => 1

/-- The empty file system: no status file exists. -/
def fsEmpty : FS := fun _ => Option.none

/-- A baseline invocation: no SMTP options, no force flag. -/
def args0 : Args :=
  { smtpserver := Option.none, smtpport := Option.none, smtpuser := Option.none,
    smtppassword := Option.none, smtpfrom := "ci@example.com", receivers := Option.none,
    force := false, repository := "repo", statusfile := "st", testcommand := "make test" }

/-- The baseline invocation with the force flag set. -/
def argsForce : Args := { args0 with force := true }

/-- A world with a new passing commit: update succeeds, svn info reports
revision 8, the test command passes, and the stored status records an older
commit with failing tests (so the claimed behavior would be: run tests,
notify the fail-to-success transition, write status, exit 0). -/
def wNewCommit : World :=
  { shell := fun c =>
      if c = "svn up repo" then (0, "At revision 8.")
      else if c = "svn info repo" then (0, "Revision: 8")
      else if c = "make test" then (0, "all tests passed")
      else (1, ""),
    fs := fun p =>
      if p = "st" then Option.some (PFile.pickled { test_success := false, last_commit_id := Option.some " ,7" })
      else Option.none,
    smtpFails := false }

/-- A world where the repository update fails. -/
def wUpdateFails : World :=
  { shell := fun c => if c = "svn up repo" then (1, "svn: not a working copy") else (0, ""),
    fs := fsEmpty, smtpFails := false }

/-- A world with no new commits: svn info reports exactly the commit already
stored, with passing tests stored, so the claimed behavior would be the
side-effect-free fast path with exit code 0. -/
def wFastPath : World :=
  { shell := fun c =>
      if c = "svn up repo" then (0, "At revision 7.")
      else if c = "svn info repo" then (0, "Revision: 7")
      else if c = "make test" then (0, "all tests passed")
      else (1, ""),
    fs := fun p =>
      if p = "st" then Option.some (PFile.pickled { test_success := true, last_commit_id := Option.some " ,7" })
      else Option.none,
    smtpFails := false }

/-- A world where svn info succeeds but emits a line without a colon. -/
def w7 : World :=
  { shell := fun c => if c = "svn info repo" then (0, "garbage") else (0, ""),
    fs := fsEmpty, smtpFails := false }

/-- A world where svn info succeeds with a single well-formed Revision line
(the only shape the parser accepts without raising). -/
def w10 : World :=
  { shell := fun c => if c = "svn info repo" then (0, "Revision: 7") else (1, ""),
    fs := fsEmpty, smtpFails := false }

/-- A notifier with a configured SMTP server. -/
def n8 : Notifier :=
  { server := Option.some "smtp.example.com", port := Option.some 25,
    username := Option.none, password := Option.none,
    receivers := Option.some "team@example.com", from_address := "ci@example.com" }

/-- A world whose SMTP transport fails. -/
def w8 : World := { shell := fun _ => (0, ""), fs := fsEmpty, smtpFails := true }

/-! ## Helper lemmas -/

/-- Joining n characters with commas yields 2n - 1 characters. -/
theorem commaJoinChars_length (l : List Char) : (commaJoinChars l).length = 2 * l.length - 1 := by
  match l with
  | [] => simp [commaJoinChars]
  | [c] => simp [commaJoinChars]
  | c :: c2 :: rest =>
    have ih := commaJoinChars_length (c2 :: rest)
    simp only [commaJoinChars, List.length_cons, ih]
    omega

/-- A comma-join of a string never has length 4 (the length is odd or zero). -/
theorem commaJoin_length_ne_four (s : String) : (commaJoin s).length ≠ 4 := by
  have h : (commaJoin s).length = (commaJoinChars s.data).length := rfl
  rw [h, commaJoinChars_length]
  omega

/-- A string whose length is not 4 fails the 4-way unpacking. -/
theorem unpack4_str_of_length_ne_four (s : String) (hs : s.length ≠ 4) :
    unpack4 (PyReturn.str s) = Except.error (PyError.valueError "values to unpack (expected 4)") := by
  simp only [unpack4]
  split
  · rename_i c1 c2 c3 c4 heq
    exact absurd ((show s.length = s.data.length from rfl).trans (by rw [heq]; rfl)) hs
  · rfl

/-- Every value produced by the per-line parser is a comma-join. -/
theorem parseSvnLine_shape (line k v : String) (h : parseSvnLine line = Except.ok (k, v)) :
    ∃ raw : String, v = commaJoin raw := by
  simp only [parseSvnLine] at h
  split at h
  · cases h
  · rename_i key values heq
    injection h with h1
    cases h1
    exact ⟨values, rfl⟩

/-- Every binding in a dict built by the parsing loop carries a comma-join
value, unless it was already in the accumulator. -/
theorem parseSvnLines_values (lines : List String) :
    ∀ (acc d : Dict), parseSvnLines lines acc = Except.ok d →
      ∀ kv : String × String, kv ∈ d → (∃ raw : String, kv.2 = commaJoin raw) ∨ kv ∈ acc := by
  induction lines with
  | nil =>
    intro acc d h kv hkv
    simp only [parseSvnLines] at h
    injection h with h1
    subst h1
    exact Or.inr hkv
  | cons line rest ih =>
    intro acc d h kv hkv
    simp only [parseSvnLines] at h
    split at h
    · cases h
    · rename_i k v heq
      rcases ih (dictInsert acc k v) d h kv hkv with hsh | hacc
      · exact Or.inl hsh
      · simp only [dictInsert, List.mem_cons] at hacc
        rcases hacc with rfl | hmem
        · exact Or.inl (parseSvnLine_shape line k v heq)
        · exact Or.inr hmem

/-- A successful dict lookup exhibits a binding of the dict. -/
theorem mem_of_dictLookup (d : Dict) (k v : String) (h : dictLookup d k = Option.some v) :
    (k, v) ∈ d := by
  induction d with
  | nil => cases h
  | cons kv rest ih =>
    obtain ⟨a, b⟩ := kv
    simp only [dictLookup, List.lookup] at h
    split at h
    · rename_i hb
      injection h with hv
      have hk : k = a := eq_of_beq hb
      subst hk
      subst hv
      exact List.mem_cons_self _ _
    · exact List.mem_cons_of_mem _ (ih h)

/-- When get_svn_info returns a dict, that dict came out of the parsing loop
applied to the raw output. -/
theorem get_svn_info_some_parse (p : String) (w : World) (d : Dict) (out : String)
    (h : get_svn_info p w = Except.ok (Option.some d, out)) :
    parseSvnLines (pySplit out '\n') [] = Except.ok d := by
  simp only [get_svn_info] at h
  split at h
  · simp at h
  · split at h
    · cases h
    · rename_i data hp
      simp only [Except.ok.injEq, Prod.mk.injEq, Option.some.injEq] at h
      obtain ⟨rfl, rfl⟩ := h
      exact hp

/-- Any string that get_last_commit_info returns on its success path is the
comma-join of some raw field text. -/
theorem commit_info_success_comma_shape (p : String) (w : World) (s : String)
    (h : get_last_commit_info p w = Except.ok (PyReturn.str s)) :
    ∃ raw : String, s = commaJoin raw := by
  simp only [get_last_commit_info] at h
  split at h
  · cases h
  · rename_i info output heq
    split at h
    · simp at h
    · rename_i d
      split at h
      · simp at h
      · split at h
        · rename_i v hl
          simp only [Except.ok.injEq, PyReturn.str.injEq] at h
          subst h
          have hmem := mem_of_dictLookup d "Revision" v hl
          have hp := get_svn_info_some_parse p w d output heq
          rcases parseSvnLines_values (pySplit output '\n') [] d hp ("Revision", v) hmem with hsh | habs
          · exact hsh
          · cases habs
        · cases h

/-! ## Claim theorems -/

/-- C9: every invocation of main constructs the Notifier with the keyword
argument user, which is not among the parameters of Notifier.__init__
(server, port, username, password, receivers, from_address), so the binding
raises a TypeError immediately: the result of every run is that TypeError and
the effect log is empty, meaning no repository, test, or status-store
operation was performed. -/
theorem main_notifier_kwarg_typeError (a : Args) (w : World) :
    pyMain a w = (Except.error (PyError.typeError (unexpectedKw "user")), []) := rfl

/-- C9 witness at a concrete invocation. -/
theorem main_notifier_kwarg_typeError_witness :
    pyMain args0 wNewCommit = (Except.error (PyError.typeError (unexpectedKw "user")), []) :=
  main_notifier_kwarg_typeError args0 wNewCommit

/-- C1: the documented exit-code mapping does not hold: every invocation of
main ends in the unhandled TypeError of the Notifier construction, so the
process exit status is 1 for all inputs, and main never returns 0 even when
the fast path would apply or the test command would exit 0. -/
theorem main_exit_status_always_one (a : Args) (w : World) :
    processExit (pyMain a w).1 = 1 ∧ (pyMain a w).1 ≠ Except.ok 0 := by
  constructor
  · rfl
  · have he : (pyMain a w).1 = Except.error (PyError.typeError (unexpectedKw "user")) := rfl
    rw [he]
    simp

/-- C1 witness at a concrete invocation whose claimed exit code would be 0. -/
theorem main_exit_status_always_one_witness :
    processExit (pyMain argsForce wNewCommit).1 = 1 ∧ (pyMain argsForce wNewCommit).1 ≠ Except.ok 0 :=
  main_exit_status_always_one argsForce wNewCommit

/-- C2: with a new commit whose test run would pass while the stored outcome
is a failure (a transition, so the claim demands a notification), the
invocation performs no external effect at all: it has already died with the
TypeError of the Notifier construction, so the test command is never executed
and nothing is ever notified. -/
theorem main_no_test_no_notification :
    (pyMain args0 wNewCommit).2 = [] ∧
    (pyMain args0 wNewCommit).1 = Except.error (PyError.typeError (unexpectedKw "user")) := by
  constructor <;> rfl

/-- C3: on an unchanged repository without the force flag the fast path is
unreachable: the invocation ends in the Notifier TypeError with process
status 1, not in a clean exit 0. -/
theorem main_fast_path_unreachable :
    pyMain args0 wFastPath = (Except.error (PyError.typeError (unexpectedKw "user")), []) ∧
    processExit (pyMain args0 wFastPath).1 ≠ 0 :=
  ⟨rfl, by decide⟩

/-- C4: when the repository update would fail, the invocation emits no
notification whatsoever: the TypeError precedes repo.update, so the effect
log is empty and not even the update command is run; the process still dies
with status 1, but through the unhandled exception rather than the
documented notify-then-return-1 path. -/
theorem main_update_failure_no_notification :
    pyMain args0 wUpdateFails = (Except.error (PyError.typeError (unexpectedKw "user")), []) := rfl

/-- C5: a forced run against an unchanged repository persists nothing: main
dies in the Notifier construction with an empty effect log, and Status.write
itself raises TypeError on every record (pickle bytes handed to a text-mode
file), so no invocation can ever write a Status. -/
theorem main_forced_run_writes_nothing :
    (pyMain argsForce wFastPath).2 = [] ∧
    (Status.write "st" { test_success := true, last_commit_id := Option.some " ,7" } fsEmpty).1
      = Except.error (PyError.typeError "write() argument must be str, not bytes") := by
  constructor <;> rfl

/-- C6: the write/read round trip never completes, because Status.write
raises TypeError for every status, path and file system (it writes pickle
bytes into a file opened in text mode); Status.read on an absent location
does return the default record. -/
theorem status_write_read_roundtrip_broken :
    (∀ (p : String) (st : Status) (fs : FS),
      (Status.write p st fs).1 = Except.error (PyError.typeError "write() argument must be str, not bytes")) ∧
    (∀ p : String,
      Status.read p fsEmpty = Except.ok { test_success := false, last_commit_id := Option.none }) :=
  ⟨fun _ _ _ => rfl, fun _ => rfl⟩

/-- C6 witness at a concrete path and status. -/
theorem status_write_read_roundtrip_broken_witness :
    (Status.write "st" { test_success := false, last_commit_id := Option.none } fsEmpty).1
      = Except.error (PyError.typeError "write() argument must be str, not bytes") ∧
    Status.read "st" fsEmpty = Except.ok { test_success := false, last_commit_id := Option.none } :=
  ⟨status_write_read_roundtrip_broken.1 "st" { test_success := false, last_commit_id := Option.none } fsEmpty,
   status_write_read_roundtrip_broken.2 "st"⟩

/-- C7: get_last_commit_info raises instead of signalling failure through an
absent commit id: when svn info exits 0 but its output holds a line without a
colon (here the single line garbage), the parser raises ValueError from the
2-way unpacking of line.split. -/
theorem get_last_commit_info_raises_valueError :
    get_last_commit_info "repo" w7 = Except.error (PyError.valueError "values to unpack (expected 2)") := rfl

/-- C8 counterexample: with a configured server and a failing transport,
notify raises and never writes anything to standard output, refuting both the
unconditional console write and the no-escalation part of the claim. -/
theorem notify_email_failure_escalates :
    (Notifier.notify n8 "ghetto-ci" "body" w8).1 = Except.error PyError.smtpError ∧
    Effect.printOut "ghetto-ci" ∉ (Notifier.notify n8 "ghetto-ci" "body" w8).2 :=
  ⟨rfl, by decide⟩

/-- C8 amended: notify attempts email delivery first when a server is
configured, with no exception handler; the console notification is written
exactly when no server is configured or delivery succeeds, and the result of
notify is a success exactly under the same condition (the transport failure
escalates to the caller). -/
theorem notify_print_iff_delivery_ok (n : Notifier) (s o : String) (w : World) :
    ((Notifier.notify n s o w).1 = Except.ok () ↔ (truthyStr n.server = false ∨ w.smtpFails = false)) ∧
    (Effect.printOut s ∈ (Notifier.notify n s o w).2 ↔ (truthyStr n.server = false ∨ w.smtpFails = false)) := by
  unfold Notifier.notify Notifier.send_email_notification Notifier.print_notification
  cases hs : truthyStr n.server <;> cases hf : w.smtpFails <;> simp [hs, hf]

/-- C8 amended witness at a concrete notifier and world. -/
theorem notify_print_iff_delivery_ok_witness :
    ((Notifier.notify n8 "subj" "body" w8).1 = Except.ok ()
      ↔ (truthyStr n8.server = false ∨ w8.smtpFails = false)) ∧
    (Effect.printOut "subj" ∈ (Notifier.notify n8 "subj" "body" w8).2
      ↔ (truthyStr n8.server = false ∨ w8.smtpFails = false)) :=
  notify_print_iff_delivery_ok n8 "subj" "body" w8

/-- C10: on its success path get_last_commit_info hands back the raw string
info of the Revision key rather than a 4-tuple; a string of length other
than 4 fails the 4-way unpacking at main.py line 354 with ValueError, and
every string the success path can produce is a comma-join, whose length is
odd or zero and never 4, so the unpacking fails on every successful metadata
query and the orchestrator cannot proceed past commit-info extraction. -/
theorem commit_info_success_value_never_unpacks :
    (∀ s : String, s.length ≠ 4 →
      unpack4 (PyReturn.str s) = Except.error (PyError.valueError "values to unpack (expected 4)")) ∧
    (∀ (p : String) (w : World) (s : String),
      get_last_commit_info p w = Except.ok (PyReturn.str s) →
      unpack4 (PyReturn.str s) = Except.error (PyError.valueError "values to unpack (expected 4)")) := by
  refine ⟨unpack4_str_of_length_ne_four, ?_⟩
  intro p w s h
  obtain ⟨raw, hraw⟩ := commit_info_success_comma_shape p w s h
  rw [hraw]
  exact unpack4_str_of_length_ne_four _ (commaJoin_length_ne_four raw)

/-- C10 witness: a world whose svn info output is a single Revision line
produces the string value comma-7 (length 3), and the theorem applied there
shows the unpacking fails; the first conjunct is also applied at a concrete
5-character string. -/
theorem commit_info_success_value_never_unpacks_witness :
    unpack4 (PyReturn.str " ,7") = Except.error (PyError.valueError "values to unpack (expected 4)") ∧
    unpack4 (PyReturn.str "abcde") = Except.error (PyError.valueError "values to unpack (expected 4)") :=
  ⟨commit_info_success_value_never_unpacks.2 "repo" w10 " ,7" (by rfl),
   commit_info_success_value_never_unpacks.1 "abcde" (by decide)⟩

end Ghettoci
